import Mathlib

set_option maxRecDepth 20000

/-!
Verification development for the RAG news chatbot front end.

Shallow embedding of the chat-state subsystem:
* `src/src/hooks/useChat.js` — message assembly (chunk / complete / typing
  handlers), HTTP send, retry, clearError, clearMessages, addSystemMessage;
* `src/src/hooks/useSession.js` — clearCurrentSession, exportSessionData;
* `src/src/components/Chat/ChatInterface.jsx` — handleClearSession;
* `src/src/services/websocket.js` — the listener map (`on` / `off` / `emit`);
* `src/src/utils/constants.js` — the constants the above read.

Modelling conventions:
* JavaScript values that may be `undefined` are `Option`; a JS field that is
  never written (e.g. `isStreaming` on user messages) is modelled as `false`.
* The JS string idiom `a || b` (default on falsy: `undefined` or `""`) is
  `jsOrStr`.
* `Date.now()` / `new Date().toISOString()` are passed in as explicit
  parameters `now : Nat` / `nowISO : String`.
* Asynchronous round trips (axios calls) are modelled by passing the outcome
  of the await as an `Except String _` parameter; the boolean paired with the
  resulting state records whether the transport call was reached.
* `setTimeout` for the typing watchdog is modelled by storing the absolute
  fire deadline in `typingTimeout`; the timer callback is `fireTypingWatchdog`.
-/

namespace FrontEnd

/-- JS `a || b` on an optional string: returns `b` when `a` is absent
(`undefined`) or the empty string, both falsy in JS. -/
def jsOrStr (a : Option String) (b : String) : String :=
  match a with
  | none => b
  | some s => if s = "" then b else s

/-! Constants from `src/src/utils/constants.js`. -/

namespace MESSAGE_TYPES

def USER : String := "user"

def ASSISTANT : String := "assistant"

def SYSTEM : String := "system"

def ERROR : String := "error"

end MESSAGE_TYPES

namespace CHAT_STATES

def IDLE : String := "idle"

def TYPING : String := "typing"

def SENDING : String := "sending"

def RECEIVING : String := "receiving"

def ERROR : String := "error"

end CHAT_STATES

/-- Model of `APP_CONFIG.MAX_MESSAGE_LENGTH` from `constants.js`. -/
def MAX_MESSAGE_LENGTH : Nat := 500

/-- Model of `maxRetries` in `useChat.js` (line 18). -/
def maxRetries : Nat := 3

/-- The typing-watchdog delay of `useChat.js` line 46 (`10000` ms). -/
def TYPING_WATCHDOG_MS : Nat := 10000

/-- The `metadata` object attached to assistant messages
(`{context, source}` on the HTTP path, the raw chunk metadata on the
streaming path). -/
structure Metadata where
  context : List String
  source : String
  deriving Repr, DecidableEq

/-- One conversation message, as built by `useChat.js` / rendered by the UI.
JS objects that never receive an `isStreaming` property (user / system /
error messages, HTTP assistant messages) are modelled with
`isStreaming = false`, matching the falsiness of `undefined`. -/
structure Message where
  id : String
  type : String
  content : String
  isStreaming : Bool
  timestamp : String
  metadata : Option Metadata
  deriving Repr, DecidableEq

/-- The state owned by the `useChat` hook (`useChat.js` lines 7-18):
the `useState` slots plus the refs. `typingTimeout` holds the absolute
deadline of the armed watchdog (`typingTimeoutRef`), `streamingMessage`
is `streamingMessageRef.current`, `retryCount` is `retryCountRef.current`. -/
structure ChatHookState where
  messages : List Message
  currentMessage : String
  isLoading : Bool
  isTyping : Bool
  chatState : String
  error : Option String
  isWebSocketConnected : Bool
  streamingMessage : String
  typingTimeout : Option Nat
  retryCount : Nat
  deriving Repr, DecidableEq

/-- The initial hook state (`useChat.js` lines 7-18). -/
def initialChatState : ChatHookState :=
  { messages := []
    currentMessage := ""
    isLoading := false
    isTyping := false
    chatState := CHAT_STATES.IDLE
    error := none
    isWebSocketConnected := false
    streamingMessage := ""
    typingTimeout := none
    retryCount := 0 }

/-- Payload of a `message_chunk` event (`{chunk, isComplete, timestamp,
metadata}`), the shape consumed by `handleMessageChunk`. -/
structure ChunkData where
  chunk : Option String
  isComplete : Bool
  timestamp : Option String
  metadata : Option Metadata
  deriving Repr, DecidableEq

/-- Payload of a `message_complete` event (`{fullResponse, timestamp}`),
the shape consumed by `handleMessageComplete`. -/
structure CompleteData where
  fullResponse : Option String
  timestamp : Option String
  deriving Repr, DecidableEq

/-- Model of `handleTyping` (`useChat.js` lines 34-48): set the typing flag, clear
any armed watchdog, and rearm it for `now + 10000` when the flag is set. -/
def handleTyping (isTypingNow : Bool) (now : Nat) (s : ChatHookState) :
    ChatHookState :=
  { s with
    isTyping := isTypingNow
    typingTimeout := if isTypingNow then some (now + TYPING_WATCHDOG_MS) else none }

/-- The body of the watchdog `setTimeout` callback (`useChat.js` line 45):
`setIsTyping(false)`. Firing consumes the timer. -/
def fireTypingWatchdog (s : ChatHookState) : ChatHookState :=
  { s with isTyping := false, typingTimeout := none }

/-- The updater lambda passed to `setMessages` inside `handleMessageChunk`
(`useChat.js` lines 54-78): update the last message in place when it is an
assistant message, otherwise push a fresh assistant message carrying the
accumulator. `acc` is `streamingMessageRef.current` after the append of
line 51. -/
def chunkMessagesUpdate (acc : String) (data : ChunkData) (now : Nat)
    (nowISO : String) (prev : List Message) : List Message :=
  let newMsg : Message :=
    { id := "msg_" ++ toString now
      type := MESSAGE_TYPES.ASSISTANT
      content := acc
      isStreaming := !data.isComplete
      timestamp := jsOrStr data.timestamp nowISO
      metadata := data.metadata }
  match prev.getLast? with
  | some lastMessage =>
    if lastMessage.type = MESSAGE_TYPES.ASSISTANT then
      prev.dropLast ++
        [{ lastMessage with
            content := acc
            isStreaming := !data.isComplete
            timestamp := jsOrStr data.timestamp nowISO }]
    else
      prev ++ [newMsg]
  | none => prev ++ [newMsg]

/-- Model of `handleMessageChunk` (`useChat.js` lines 50-85): append the chunk text to
the accumulator, run the `setMessages` updater, and on `isComplete` reset the
accumulator, clear typing and go idle. Note that this handler never touches
`typingTimeoutRef`. -/
def handleMessageChunk (data : ChunkData) (now : Nat) (nowISO : String)
    (s : ChatHookState) : ChatHookState :=
  let acc := s.streamingMessage ++ jsOrStr data.chunk ""
  let s' :=
    { s with
      streamingMessage := acc
      messages := chunkMessagesUpdate acc data now nowISO s.messages }
  if data.isComplete then
    { s' with
      streamingMessage := ""
      isTyping := false
      chatState := CHAT_STATES.IDLE }
  else s'

/-- The updater lambda passed to `setMessages` inside
`handleMessageComplete` (`useChat.js` lines 93-107): when the last message
is an assistant message, overwrite its content with
`data.fullResponse || lastMessage.content` and mark it non-streaming;
otherwise leave the list unchanged. -/
def completeMessagesUpdate (data : CompleteData) (nowISO : String)
    (prev : List Message) : List Message :=
  match prev.getLast? with
  | some lastMessage =>
    if lastMessage.type = MESSAGE_TYPES.ASSISTANT then
      prev.dropLast ++
        [{ lastMessage with
            content := jsOrStr data.fullResponse lastMessage.content
            isStreaming := false
            timestamp := jsOrStr data.timestamp nowISO }]
    else prev
  | none => prev

/-- Model of `handleMessageComplete` (`useChat.js` lines 87-108): reset the
accumulator, clear typing, go idle, and run the `setMessages` updater. -/
def handleMessageComplete (data : CompleteData) (nowISO : String)
    (s : ChatHookState) : ChatHookState :=
  { s with
    streamingMessage := ""
    isTyping := false
    chatState := CHAT_STATES.IDLE
    messages := completeMessagesUpdate data nowISO s.messages }

/-- Model of `handleConnectionStatus` (`useChat.js` lines 26-32): record the
connection flag; when connected, clear the error and reset the retry
counter. -/
def handleConnectionStatus (connected : Bool) (s : ChatHookState) :
    ChatHookState :=
  let s' := { s with isWebSocketConnected := connected }
  if connected then { s' with error := none, retryCount := 0 } else s'

/-- The `response.data` shape of `POST /api/chat`
(`{botResponse, timestamp, context, source}`). -/
structure ApiChatResponse where
  botResponse : String
  timestamp : String
  context : Option (List String)
  source : Option String
  deriving Repr, DecidableEq

/-- The JS `String.prototype.trim()`: strip leading and trailing
whitespace. Implemented structurally over the character list so that it
evaluates by reduction. -/
def jsTrim (s : String) : String :=
  String.mk
    (((s.data.dropWhile Char.isWhitespace).reverse.dropWhile
        Char.isWhitespace).reverse)

/-- Model of `sendMessageHTTP` (`useChat.js` lines 190-248). The awaited
`chatAPI.sendMessage` outcome is the `apiResult` parameter; the returned
boolean records whether the transport call was reached (false only on the
early return for blank input or an in-flight load). The handler performs no
length validation. -/
def sendMessageHTTP (message : String) (now : Nat) (nowISO : String)
    (apiResult : Except String ApiChatResponse) (s : ChatHookState) :
    ChatHookState × Bool :=
  if jsTrim message = "" ∨ s.isLoading then (s, false)
  else
    let s₁ :=
      { s with
        isLoading := true
        error := none
        chatState := CHAT_STATES.SENDING }
    let userMessage : Message :=
      { id := "msg_" ++ toString now ++ "_user"
        type := MESSAGE_TYPES.USER
        content := message
        isStreaming := false
        timestamp := nowISO
        metadata := none }
    let s₂ := { s₁ with messages := s₁.messages ++ [userMessage] }
    match apiResult with
    | .ok r =>
      let assistantMessage : Message :=
        { id := "msg_" ++ toString now ++ "_assistant"
          type := MESSAGE_TYPES.ASSISTANT
          content := r.botResponse
          isStreaming := false
          timestamp := r.timestamp
          metadata := some { context := r.context.getD [], source := (r.source).getD "api" } }
      ({ s₂ with
          messages := s₂.messages ++ [assistantMessage]
          currentMessage := ""
          chatState := CHAT_STATES.IDLE
          isLoading := false }, true)
    | .error e =>
      let errorMessage : Message :=
        { id := "msg_" ++ toString now ++ "_error"
          type := MESSAGE_TYPES.ERROR
          content := "Failed to send message: " ++ e
          isStreaming := false
          timestamp := nowISO
          metadata := none }
      ({ s₂ with
          error := some e
          chatState := CHAT_STATES.ERROR
          messages := s₂.messages ++ [errorMessage]
          isLoading := false }, true)

/-- Model of `retryMessage` (`useChat.js` lines 259-269): below `maxRetries`
increment the counter and delegate to `sendMessage` (which calls
`sendMessageHTTP`); at or above the bound set the exhaustion error and do
not send. -/
def retryMessage (message : String) (now : Nat) (nowISO : String)
    (apiResult : Except String ApiChatResponse) (s : ChatHookState) :
    ChatHookState × Bool :=
  if s.retryCount < maxRetries then
    sendMessageHTTP message now nowISO apiResult
      { s with retryCount := s.retryCount + 1 }
  else
    ({ s with
        error :=
          some ("Failed to send message after " ++ toString maxRetries ++ " attempts") },
      false)

/-- Model of `clearError` (`useChat.js` lines 272-276). -/
def clearError (s : ChatHookState) : ChatHookState :=
  { s with error := none, chatState := CHAT_STATES.IDLE, retryCount := 0 }

/-- Model of `clearMessages` (`useChat.js` lines 279-285). -/
def clearMessages (s : ChatHookState) : ChatHookState :=
  { s with
    messages := []
    currentMessage := ""
    error := none
    chatState := CHAT_STATES.IDLE
    streamingMessage := "" }

/-- Model of `addSystemMessage` (`useChat.js` lines 288-300): unconditionally append
a message of the given type (default `system`). -/
def addSystemMessage (content : String) (ty : String) (now : Nat)
    (nowISO : String) (s : ChatHookState) : ChatHookState :=
  { s with
    messages :=
      s.messages ++
        [{ id := "msg_" ++ toString now ++ "_system"
           type := ty
           content := content
           isStreaming := false
           timestamp := nowISO
           metadata := none }] }

/-! Session state: `src/src/hooks/useSession.js`. -/

/-- The state owned by the `useSession` hook (`useSession.js` lines 6-12).
`sessionStats` is the opaque stats payload of `sessionAPI.getStats`,
modelled as an optional string since no claim inspects its contents. -/
structure SessionState where
  currentSessionId : Option String
  sessionHistory : List Message
  isCreatingSession : Bool
  isClearingSession : Bool
  isLoadingHistory : Bool
  error : Option String
  sessionStats : Option String
  deriving Repr, DecidableEq

/-- Model of `clearCurrentSession` (`useSession.js` lines 81-100). The awaited
`sessionAPI.clearSession` outcome is `apiResult`. Returns the new state and
the JS return value (`true` on success, `false` on failure; the guard's bare
`return` for a missing session id yields `undefined`, also falsy). The
failure branch catches the error — it never rethrows. -/
def clearCurrentSession (apiResult : Except String Unit) (s : SessionState) :
    SessionState × Bool :=
  match s.currentSessionId with
  | none => (s, false)
  | some _ =>
    let s₁ := { s with isClearingSession := true, error := none }
    match apiResult with
    | .ok _ =>
      ({ s₁ with sessionHistory := [], isClearingSession := false }, true)
    | .error e =>
      ({ s₁ with error := some e, isClearingSession := false }, false)

/-- A JS value, as far as the exported JSON shape is concerned. -/
inductive JsValue where
  | jsNull : JsValue
  | str : String → JsValue
  | arr : List JsValue → JsValue
  | obj : List (String × JsValue) → JsValue

/-- Top-level keys of a JS object value. -/
def objKeys : JsValue → List String
  | .obj fields => fields.map Prod.fst
  | _ => []

/-- A `Message` as a JS object (field order of the literals in
`useChat.js`). -/
def msgToJs (m : Message) : JsValue :=
  .obj
    [("id", .str m.id), ("type", .str m.type), ("content", .str m.content),
     ("isStreaming", .str (toString m.isStreaming)),
     ("timestamp", .str m.timestamp)]

/-- An optional string as a JS value (`null` when absent). -/
def jsOptStr : Option String → JsValue
  | none => .jsNull
  | some s => .str s

/-- Model of `exportSessionData` (`useSession.js` lines 182-189): builds the object
literal `{sessionId, history, stats, exportedAt}`. The source invokes no
state setter, so the state component of the result is the input state
unchanged. -/
def exportSessionData (nowISO : String) (s : SessionState) :
    JsValue × SessionState :=
  (.obj
    [("sessionId", jsOptStr s.currentSessionId),
     ("history", .arr (s.sessionHistory.map msgToJs)),
     ("stats", jsOptStr s.sessionStats),
     ("exportedAt", .str nowISO)], s)

/-- Model of `handleClearSession` (`ChatInterface.jsx` lines 94-104): awaits
`clearCurrentSession` and then calls `clearMessages()`. Because
`clearCurrentSession` catches its error and returns `false` instead of
throwing, the `catch` branch of `handleClearSession` is unreachable and
`clearMessages` runs on both outcomes. (The `setShowWelcome` /
`setInputValue` UI-local updates are outside the claims and elided.) -/
def handleClearSession (apiResult : Except String Unit) (ss : SessionState)
    (cs : ChatHookState) : SessionState × ChatHookState :=
  let r := clearCurrentSession apiResult ss
  (r.1, clearMessages cs)

/-! WebSocket listener map: `src/src/services/websocket.js`. -/

/-- A subscribed callback, abstracted to an identifier plus whether invoking
it raises (the behaviour `emit` must isolate). -/
structure Handler where
  hid : Nat
  throws : Bool
  deriving Repr, DecidableEq

/-- The `eventListeners` map of `WebSocketService` (a `Map` from event name
to an array of callbacks), as an association list. -/
abbrev ListenerMap := List (String × List Handler)

/-- Look up the callback array for an event (`eventListeners.get(event)`,
empty when the event has no entry). -/
def listenersFor (event : String) (m : ListenerMap) : List Handler :=
  match m.find? (fun p => p.1 = event) with
  | some p => p.2
  | none => []

/-- Model of `WebSocketService.on` (`websocket.js` lines 126-131): create the entry
when missing, then push the callback at the end of the array. -/
def wsOn (event : String) (h : Handler) (m : ListenerMap) : ListenerMap :=
  match m with
  | [] => [(event, [h])]
  | p :: rest =>
    if p.1 = event then (p.1, p.2 ++ [h]) :: rest
    else p :: wsOn event h rest

/-- Outcome of invoking one callback: the isolated `try { callback(data) }
catch { log }` body of `emit`. -/
def runHandler (h : Handler) : Except String Unit :=
  if h.throws then .error "Error in event listener" else .ok ()

/-- Model of `WebSocketService.emit` (`websocket.js` lines 144-155): `forEach` over
the registered callbacks, invoking each inside `try`/`catch`. The result is
the invocation trace — one entry per callback actually invoked, in array
order, with the caught outcome. -/
def wsEmit (event : String) (m : ListenerMap) :
    List (Nat × Except String Unit) :=
  (listenersFor event m).map (fun h => (h.hid, runHandler h))

/-! Theorems. -/

/-- No message of the state is currently streaming (the guard under which
the spec allows appending a user or system message). -/
def noStreaming (s : ChatHookState) : Prop :=
  ∀ m ∈ s.messages, m.isStreaming = false

instance (s : ChatHookState) : Decidable (noStreaming s) := by
  unfold noStreaming; infer_instance

/-- The chat states reachable from the initial hook state by the event
alphabet of the single-open-message claim, with appends guarded as the spec
prescribes: chunk and complete events are unrestricted, while an HTTP send
(taken atomically: no event interleaves the in-flight request) and a system
append may fire only when no message is streaming. -/
inductive GuardedReach : ChatHookState → Prop where
  | init : GuardedReach initialChatState
  | chunk (d : ChunkData) (now : Nat) (iso : String) {s : ChatHookState} :
      GuardedReach s → GuardedReach (handleMessageChunk d now iso s)
  | complete (d : CompleteData) (iso : String) {s : ChatHookState} :
      GuardedReach s → GuardedReach (handleMessageComplete d iso s)
  | send (msg : String) (now : Nat) (iso : String)
      (r : Except String ApiChatResponse) {s : ChatHookState} :
      GuardedReach s → noStreaming s →
      GuardedReach (sendMessageHTTP msg now iso r s).1
  | system (c ty : String) (now : Nat) (iso : String) {s : ChatHookState} :
      GuardedReach s → noStreaming s →
      GuardedReach (addSystemMessage c ty now iso s)

/-- The inductive invariant behind the single-open-message property: every
message except possibly the last is non-streaming, and a streaming message
is always an assistant message. -/
def StreamInv (ms : List Message) : Prop :=
  (∀ m ∈ ms.dropLast, m.isStreaming = false) ∧
  (∀ m ∈ ms, m.isStreaming = true → m.type = MESSAGE_TYPES.ASSISTANT)

lemma streamInv_of_all_false {ms : List Message}
    (h : ∀ m ∈ ms, m.isStreaming = false) : StreamInv ms := by
  refine ⟨fun m hm => h m (List.dropLast_subset ms hm), fun m hm hs => ?_⟩
  rw [h m hm] at hs
  cases hs

lemma streamInv_chunkMessagesUpdate (acc : String) (d : ChunkData) (now : Nat)
    (iso : String) {ms : List Message} (h : StreamInv ms) :
    StreamInv (chunkMessagesUpdate acc d now iso ms) := by
  obtain ⟨h₁, h₂⟩ := h
  rcases List.eq_nil_or_concat ms with hnil | ⟨L, b, hcat⟩
  · subst hnil
    refine ⟨fun m hm => ?_, fun m hm hs => ?_⟩
    · simp [chunkMessagesUpdate] at hm
    · simp [chunkMessagesUpdate] at hm
      simp [hm]
  · rw [List.concat_eq_append] at hcat
    subst hcat
    rw [List.dropLast_concat] at h₁
    unfold chunkMessagesUpdate
    rw [List.getLast?_concat]
    simp only
    by_cases hb : b.type = MESSAGE_TYPES.ASSISTANT
    · rw [if_pos hb]
      refine ⟨fun m hm => ?_, fun m hm hs => ?_⟩
      · rw [List.dropLast_concat, List.dropLast_concat] at hm
        exact h₁ m hm
      · rw [List.dropLast_concat] at hm
        rcases List.mem_append.mp hm with hmL | hmb
        · rw [h₁ m hmL] at hs; cases hs
        · have hm' := List.mem_singleton.mp hmb
          subst hm'
          exact hb
    · rw [if_neg hb]
      have hbfalse : b.isStreaming = false := by
        cases hsb : b.isStreaming
        · rfl
        · exact absurd (h₂ b (by simp) hsb) hb
      refine ⟨fun m hm => ?_, fun m hm hs => ?_⟩
      · rw [List.dropLast_concat] at hm
        rcases List.mem_append.mp hm with hmL | hmb
        · exact h₁ m hmL
        · rw [List.mem_singleton.mp hmb]
          exact hbfalse
      · rcases List.mem_append.mp hm with hmold | hmnew
        · exact h₂ m hmold hs
        · have hm' := List.mem_singleton.mp hmnew
          subst hm'
          rfl

lemma streamInv_completeMessagesUpdate (d : CompleteData) (iso : String)
    {ms : List Message} (h : StreamInv ms) :
    StreamInv (completeMessagesUpdate d iso ms) := by
  obtain ⟨h₁, h₂⟩ := h
  rcases List.eq_nil_or_concat ms with hnil | ⟨L, b, hcat⟩
  · subst hnil
    exact ⟨by simp [completeMessagesUpdate], by simp [completeMessagesUpdate]⟩
  · rw [List.concat_eq_append] at hcat
    subst hcat
    rw [List.dropLast_concat] at h₁
    unfold completeMessagesUpdate
    rw [List.getLast?_concat]
    simp only
    by_cases hb : b.type = MESSAGE_TYPES.ASSISTANT
    · rw [if_pos hb]
      refine ⟨fun m hm => ?_, fun m hm hs => ?_⟩
      · rw [List.dropLast_concat, List.dropLast_concat] at hm
        exact h₁ m hm
      · rw [List.dropLast_concat] at hm
        rcases List.mem_append.mp hm with hmL | hmb
        · rw [h₁ m hmL] at hs; cases hs
        · rw [List.mem_singleton.mp hmb] at hs
          cases hs
    · rw [if_neg hb]
      refine ⟨fun m hm => ?_, h₂⟩
      rw [List.dropLast_concat] at hm
      exact h₁ m hm

lemma handleMessageChunk_messages (d : ChunkData) (now : Nat) (iso : String)
    (s : ChatHookState) :
    (handleMessageChunk d now iso s).messages =
      chunkMessagesUpdate (s.streamingMessage ++ jsOrStr d.chunk "") d now iso
        s.messages := by
  unfold handleMessageChunk
  by_cases hc : d.isComplete <;> simp [hc]

lemma sendMessageHTTP_all_nonstreaming (msg : String) (now : Nat)
    (iso : String) (r : Except String ApiChatResponse) {s : ChatHookState}
    (h : noStreaming s) :
    ∀ m ∈ (sendMessageHTTP msg now iso r s).1.messages, m.isStreaming = false := by
  unfold sendMessageHTTP
  by_cases hg : jsTrim msg = "" ∨ s.isLoading
  · rw [if_pos hg]
    exact h
  · rw [if_neg hg]
    cases r with
    | ok resp =>
      intro m hm
      simp only [List.append_assoc, List.mem_append] at hm
      rcases hm with hm | hm
      · exact h m hm
      · simp at hm
        rcases hm with hm | hm <;> simp [hm]
    | error e =>
      intro m hm
      simp only [List.append_assoc, List.mem_append] at hm
      rcases hm with hm | hm
      · exact h m hm
      · simp at hm
        rcases hm with hm | hm <;> simp [hm]

lemma addSystemMessage_all_nonstreaming (c ty : String) (now : Nat)
    (iso : String) {s : ChatHookState} (h : noStreaming s) :
    ∀ m ∈ (addSystemMessage c ty now iso s).messages, m.isStreaming = false := by
  unfold addSystemMessage
  intro m hm
  simp only [List.mem_append, List.mem_singleton] at hm
  rcases hm with hm | hm
  · exact h m hm
  · simp [hm]

lemma streamInv_of_guardedReach {s : ChatHookState} (h : GuardedReach s) :
    StreamInv s.messages := by
  induction h with
  | init => exact ⟨by simp [initialChatState], by simp [initialChatState]⟩
  | chunk d now iso _ ih =>
    rw [handleMessageChunk_messages]
    exact streamInv_chunkMessagesUpdate _ d now iso ih
  | complete d iso _ ih =>
    exact streamInv_completeMessagesUpdate d iso ih
  | send msg now iso r _ hns _ =>
    exact streamInv_of_all_false (sendMessageHTTP_all_nonstreaming msg now iso r hns)
  | system c ty now iso _ hns _ =>
    exact streamInv_of_all_false (addSystemMessage_all_nonstreaming c ty now iso hns)

lemma count_streaming_le_one {ms : List Message} (h : StreamInv ms) :
    (ms.filter (fun m => m.isStreaming)).length ≤ 1 := by
  obtain ⟨h₁, h₂⟩ := h
  rcases List.eq_nil_or_concat ms with hnil | ⟨L, b, hcat⟩
  · subst hnil; simp
  · rw [List.concat_eq_append] at hcat
    subst hcat
    rw [List.dropLast_concat] at h₁
    rw [List.filter_append]
    have hL : L.filter (fun m => m.isStreaming) = [] := by
      rw [List.filter_eq_nil_iff]
      intro m hm
      simp [h₁ m hm]
    rw [hL, List.nil_append]
    cases hb : b.isStreaming <;> simp [hb]

/-- C1, as frozen, is false on the code: from the initial state, a chunk
event opening a streaming assistant message, followed by a system-message
append (which `addSystemMessage` performs unconditionally), followed by
another chunk event (whose handler only inspects the last message, now the
system one, and so pushes a second streaming assistant message) leaves two
messages with `streaming=true` in the list. -/
theorem single_streaming_counterexample :
    ((handleMessageChunk ⟨some "b", false, none, none⟩ 2 "t2"
        (addSystemMessage "note" MESSAGE_TYPES.SYSTEM 1 "t1"
          (handleMessageChunk ⟨some "a", false, none, none⟩ 0 "t0"
            initialChatState))).messages.filter
      (fun m => m.isStreaming)).length = 2 := by rfl

/-- C1 (amended): for any sequence of chunk events, complete events,
HTTP sends and system-message appends in which sends and appends occur only
when no message is streaming (and sends resolve before further events, as
the spec's "no send is in flight" proviso requires), at most one message in
the list has `streaming=true` at any observation point. -/
theorem guarded_single_streaming {s : ChatHookState} (h : GuardedReach s) :
    (s.messages.filter (fun m => m.isStreaming)).length ≤ 1 :=
  count_streaming_le_one (streamInv_of_guardedReach h)

/-- Witness for the amended C1 at a concrete reachable state: a send from
the initial state followed by two chunk events. -/
theorem guarded_single_streaming_witness :
    (((handleMessageChunk ⟨some "lo", false, none, none⟩ 2 "t2"
        (handleMessageChunk ⟨some "Hel", false, none, none⟩ 1 "t1"
          (sendMessageHTTP "hi" 0 "t0" (.ok ⟨"resp", "ts", none, none⟩)
            initialChatState).1)).messages.filter
      (fun m => m.isStreaming)).length) ≤ 1 :=
  guarded_single_streaming
    (GuardedReach.chunk _ _ _
      (GuardedReach.chunk _ _ _
        (GuardedReach.send "hi" 0 "t0" _ GuardedReach.init (by decide))))

lemma completeMessagesUpdate_assistant (d : CompleteData) (iso : String)
    {ms : List Message} {b : Message} (hl : ms.getLast? = some b)
    (hty : b.type = MESSAGE_TYPES.ASSISTANT) :
    completeMessagesUpdate d iso ms =
      ms.dropLast ++
        [{ b with
            content := jsOrStr d.fullResponse b.content
            isStreaming := false
            timestamp := jsOrStr d.timestamp iso }] := by
  unfold completeMessagesUpdate
  rw [hl]
  simp only [if_pos hty]

/-- C2: a terminal `complete` event carrying a non-empty `fullResponse`
overwrites the open (last, assistant) message's content with that full
response, marks it non-streaming, clears the typing flag, resets the chat
state to idle and empties the streaming accumulator. -/
theorem complete_overrides {s : ChatHookState} {b : Message}
    {d : CompleteData} {r : String}
    (hl : s.messages.getLast? = some b)
    (hty : b.type = MESSAGE_TYPES.ASSISTANT)
    (hd : d.fullResponse = some r) (hr : ¬ r = "") (iso : String) :
    (handleMessageComplete d iso s).messages.getLast? =
      some { b with content := r, isStreaming := false, timestamp := jsOrStr d.timestamp iso } ∧
    (handleMessageComplete d iso s).isTyping = false ∧
    (handleMessageComplete d iso s).chatState = CHAT_STATES.IDLE ∧
    (handleMessageComplete d iso s).streamingMessage = "" := by
  have hmsg : (handleMessageComplete d iso s).messages =
      s.messages.dropLast ++
        [{ b with
            content := jsOrStr d.fullResponse b.content
            isStreaming := false
            timestamp := jsOrStr d.timestamp iso }] :=
    completeMessagesUpdate_assistant d iso hl hty
  refine ⟨?_, rfl, rfl, rfl⟩
  rw [hmsg, List.getLast?_concat]
  have : jsOrStr d.fullResponse b.content = r := by
    rw [hd]
    simp [jsOrStr, hr]
  rw [this]

/-- Witness for C2, the spec's P3 scenario: a chunk assembling
`"partial tex"` followed by a `complete` event with
`fullResponse="Authoritative"` leaves the assistant message with content
`"Authoritative"`, non-streaming, typing cleared and the state idle. -/
theorem complete_overrides_witness :
    (handleMessageComplete ⟨some "Authoritative", none⟩ "t1"
        (handleMessageChunk ⟨some "partial tex", false, none, none⟩ 0 "t0"
          initialChatState)).messages.getLast? =
      some { id := "msg_0", type := MESSAGE_TYPES.ASSISTANT,
             content := "Authoritative", isStreaming := false,
             timestamp := "t1", metadata := none } ∧
    (handleMessageComplete ⟨some "Authoritative", none⟩ "t1"
        (handleMessageChunk ⟨some "partial tex", false, none, none⟩ 0 "t0"
          initialChatState)).isTyping = false ∧
    (handleMessageComplete ⟨some "Authoritative", none⟩ "t1"
        (handleMessageChunk ⟨some "partial tex", false, none, none⟩ 0 "t0"
          initialChatState)).chatState = CHAT_STATES.IDLE ∧
    (handleMessageComplete ⟨some "Authoritative", none⟩ "t1"
        (handleMessageChunk ⟨some "partial tex", false, none, none⟩ 0 "t0"
          initialChatState)).streamingMessage = "" := by
  exact complete_overrides
    (s := handleMessageChunk ⟨some "partial tex", false, none, none⟩ 0 "t0"
      initialChatState)
    (b := { id := "msg_0", type := MESSAGE_TYPES.ASSISTANT,
            content := "partial tex", isStreaming := true,
            timestamp := "t0", metadata := none })
    (d := ⟨some "Authoritative", none⟩) (r := "Authoritative")
    (by rfl) (by rfl) (by rfl) (by decide) "t1"

/-- C10: a `complete` event whose `fullResponse` is falsy (absent or the
empty string) leaves the open assistant message's accumulated content in
place while still marking it non-streaming, clearing typing and resetting
the chat state to idle. -/
theorem complete_falsy_keeps_content {s : ChatHookState} {b : Message}
    {d : CompleteData}
    (hl : s.messages.getLast? = some b)
    (hty : b.type = MESSAGE_TYPES.ASSISTANT)
    (hd : d.fullResponse = none ∨ d.fullResponse = some "") (iso : String) :
    (handleMessageComplete d iso s).messages.getLast? =
      some { b with isStreaming := false, timestamp := jsOrStr d.timestamp iso } ∧
    (handleMessageComplete d iso s).isTyping = false ∧
    (handleMessageComplete d iso s).chatState = CHAT_STATES.IDLE ∧
    (handleMessageComplete d iso s).streamingMessage = "" := by
  have hmsg : (handleMessageComplete d iso s).messages =
      s.messages.dropLast ++
        [{ b with
            content := jsOrStr d.fullResponse b.content
            isStreaming := false
            timestamp := jsOrStr d.timestamp iso }] :=
    completeMessagesUpdate_assistant d iso hl hty
  refine ⟨?_, rfl, rfl, rfl⟩
  rw [hmsg, List.getLast?_concat]
  have : jsOrStr d.fullResponse b.content = b.content := by
    rcases hd with hd | hd <;> rw [hd] <;> simp [jsOrStr]
  rw [this]

/-- Witness for C10: after chunks assembled to `"partial tex"`, a
`complete` event with `fullResponse=""` keeps `"partial tex"` as the
content. -/
theorem complete_falsy_keeps_content_witness :
    (handleMessageComplete ⟨some "", none⟩ "t1"
        (handleMessageChunk ⟨some "partial tex", false, none, none⟩ 0 "t0"
          initialChatState)).messages.getLast? =
      some { id := "msg_0", type := MESSAGE_TYPES.ASSISTANT,
             content := "partial tex", isStreaming := false,
             timestamp := "t1", metadata := none } ∧
    (handleMessageComplete ⟨some "", none⟩ "t1"
        (handleMessageChunk ⟨some "partial tex", false, none, none⟩ 0 "t0"
          initialChatState)).isTyping = false ∧
    (handleMessageComplete ⟨some "", none⟩ "t1"
        (handleMessageChunk ⟨some "partial tex", false, none, none⟩ 0 "t0"
          initialChatState)).chatState = CHAT_STATES.IDLE ∧
    (handleMessageComplete ⟨some "", none⟩ "t1"
        (handleMessageChunk ⟨some "partial tex", false, none, none⟩ 0 "t0"
          initialChatState)).streamingMessage = "" := by
  exact complete_falsy_keeps_content
    (s := handleMessageChunk ⟨some "partial tex", false, none, none⟩ 0 "t0"
      initialChatState)
    (b := { id := "msg_0", type := MESSAGE_TYPES.ASSISTANT,
            content := "partial tex", isStreaming := true,
            timestamp := "t0", metadata := none })
    (d := ⟨some "", none⟩)
    (by rfl) (by rfl) (Or.inr rfl) "t1"

lemma handleMessageChunk_acc (d : ChunkData) (now : Nat) (iso : String)
    (s : ChatHookState) :
    (handleMessageChunk d now iso s).streamingMessage =
      if d.isComplete then "" else s.streamingMessage ++ jsOrStr d.chunk "" := by
  unfold handleMessageChunk
  by_cases hc : d.isComplete <;> simp [hc]

lemma chunkMessagesUpdate_getLast (acc : String) (d : ChunkData) (now : Nat)
    (iso : String) (ms : List Message) :
    ∃ m, (chunkMessagesUpdate acc d now iso ms).getLast? = some m ∧
      m.content = acc ∧ m.isStreaming = !d.isComplete ∧
      m.type = MESSAGE_TYPES.ASSISTANT := by
  unfold chunkMessagesUpdate
  rcases List.eq_nil_or_concat ms with hnil | ⟨L, b, hcat⟩
  · subst hnil
    exact ⟨_, List.getLast?_concat _, rfl, rfl, rfl⟩
  · rw [List.concat_eq_append] at hcat
    subst hcat
    rw [List.getLast?_concat]
    simp only
    by_cases hb : b.type = MESSAGE_TYPES.ASSISTANT
    · rw [if_pos hb]
      exact ⟨_, List.getLast?_concat _, rfl, rfl, hb⟩
    · rw [if_neg hb]
      exact ⟨_, List.getLast?_concat _, rfl, rfl, rfl⟩

lemma handleMessageChunk_getLast (d : ChunkData) (now : Nat) (iso : String)
    (s : ChatHookState) :
    ∃ m, (handleMessageChunk d now iso s).messages.getLast? = some m ∧
      m.content = s.streamingMessage ++ jsOrStr d.chunk "" ∧
      m.isStreaming = !d.isComplete ∧
      m.type = MESSAGE_TYPES.ASSISTANT := by
  rw [handleMessageChunk_messages]
  exact chunkMessagesUpdate_getLast _ d now iso s.messages

lemma sendMessageHTTP_acc (msg : String) (now : Nat) (iso : String)
    (r : Except String ApiChatResponse) (s : ChatHookState) :
    (sendMessageHTTP msg now iso r s).1.streamingMessage =
      s.streamingMessage := by
  unfold sendMessageHTTP
  by_cases hg : jsTrim msg = "" ∨ s.isLoading
  · rw [if_pos hg]
  · rw [if_neg hg]
    cases r <;> rfl

/-- Along guarded event sequences the streaming accumulator is empty
whenever no message is streaming: "no open assistant message" and "empty
accumulator" coincide on reachable states. -/
lemma acc_empty_of_guardedReach {s : ChatHookState} (h : GuardedReach s) :
    noStreaming s → s.streamingMessage = "" := by
  induction h with
  | init => intro _; rfl
  | @chunk d now iso t hr ih =>
    intro hno
    by_cases hc : d.isComplete
    · rw [handleMessageChunk_acc]
      rw [if_pos hc]
    · obtain ⟨m, hm, _, hstr, _⟩ := handleMessageChunk_getLast d now iso t
      have hmem : m ∈ (handleMessageChunk d now iso t).messages := by
        have := List.dropLast_append_getLast? m hm
        rw [← this]
        simp
      have h5 := hno m hmem
      rw [hstr] at h5
      cases hcb : d.isComplete
      · rw [hcb] at h5
        simp at h5
      · exact absurd hcb hc
  | complete d iso hr ih => intro _; rfl
  | @send msg now iso r t hr hno ih =>
    intro _
    rw [sendMessageHTTP_acc]
    exact ih hno
  | @system c ty now iso t hr hno ih =>
    intro _
    exact ih hno

/-- C3: from any reachable chat state with no open (streaming) message —
where the accumulator is empty, by `acc_empty_of_guardedReach` — chunk
events carrying `["Hel", "lo, ", "world"]` with
`isComplete = [false, false, true]` are concatenated in arrival order: the
resulting assistant message has content `"Hello, world"` and
`streaming = false` after the last event. -/
theorem chunk_concat {s : ChatHookState} (h : GuardedReach s)
    (hno : noStreaming s) (n₁ n₂ n₃ : Nat) (t₁ t₂ t₃ : String) :
    ((handleMessageChunk ⟨some "world", true, none, none⟩ n₃ t₃
        (handleMessageChunk ⟨some "lo, ", false, none, none⟩ n₂ t₂
          (handleMessageChunk ⟨some "Hel", false, none, none⟩ n₁ t₁
            s))).messages.getLast?.map Message.content = some "Hello, world") ∧
    ((handleMessageChunk ⟨some "world", true, none, none⟩ n₃ t₃
        (handleMessageChunk ⟨some "lo, ", false, none, none⟩ n₂ t₂
          (handleMessageChunk ⟨some "Hel", false, none, none⟩ n₁ t₁
            s))).messages.getLast?.map Message.isStreaming = some false) := by
  have hacc := acc_empty_of_guardedReach h hno
  have h₁ := handleMessageChunk_acc ⟨some "Hel", false, none, none⟩ n₁ t₁ s
  rw [hacc] at h₁
  simp only [if_neg (by decide : ¬ False), jsOrStr] at h₁
  have h₂ := handleMessageChunk_acc ⟨some "lo, ", false, none, none⟩ n₂ t₂
    (handleMessageChunk ⟨some "Hel", false, none, none⟩ n₁ t₁ s)
  rw [h₁] at h₂
  simp only [jsOrStr] at h₂
  obtain ⟨m, hm, hcon, hstr, _⟩ :=
    handleMessageChunk_getLast ⟨some "world", true, none, none⟩ n₃ t₃
      (handleMessageChunk ⟨some "lo, ", false, none, none⟩ n₂ t₂
        (handleMessageChunk ⟨some "Hel", false, none, none⟩ n₁ t₁ s))
  rw [h₂] at hcon
  simp only [jsOrStr] at hcon
  rw [hm]
  constructor
  · simpa using hcon
  · simpa using hstr

/-- Witness for C3 at the initial state. -/
theorem chunk_concat_witness :
    ((handleMessageChunk ⟨some "world", true, none, none⟩ 2 "t2"
        (handleMessageChunk ⟨some "lo, ", false, none, none⟩ 1 "t1"
          (handleMessageChunk ⟨some "Hel", false, none, none⟩ 0 "t0"
            initialChatState))).messages.getLast?.map Message.content =
      some "Hello, world") ∧
    ((handleMessageChunk ⟨some "world", true, none, none⟩ 2 "t2"
        (handleMessageChunk ⟨some "lo, ", false, none, none⟩ 1 "t1"
          (handleMessageChunk ⟨some "Hel", false, none, none⟩ 0 "t0"
            initialChatState))).messages.getLast?.map Message.isStreaming =
      some false) :=
  chunk_concat GuardedReach.init (by decide) 0 1 2 "t0" "t1" "t2"

/-- C4, as frozen, is false on the code: after `typing(true)` at time 0 the
watchdog is armed for 10000, but a chunk event at time 5000 leaves the
armed deadline at 10000 — `handleMessageChunk` never touches
`typingTimeoutRef`, so the event does not cancel and rearm the watchdog
(which would have moved the deadline to 15000). -/
theorem typing_watchdog_counterexample :
    (handleMessageChunk ⟨some "x", false, none, none⟩ 5000 "t"
        (handleTyping true 0 initialChatState)).typingTimeout = some 10000 ∧
    some (10000 : Nat) ≠ some (5000 + TYPING_WATCHDOG_MS) := by
  refine ⟨by rfl, by decide⟩

/-- C4 (amended): `typing(true)` sets the typing flag and arms the 10-second
watchdog; every typing event cancels the pending watchdog and rearms it only
when the flag is set; chunk events leave the watchdog untouched; when the
watchdog fires, the typing flag is forced to false. -/
theorem typing_watchdog_behavior (s : ChatHookState) (b : Bool) (now : Nat)
    (d : ChunkData) (iso : String) :
    (handleTyping true now s).isTyping = true ∧
    (handleTyping true now s).typingTimeout = some (now + TYPING_WATCHDOG_MS) ∧
    (handleTyping b now s).typingTimeout =
      (if b then some (now + TYPING_WATCHDOG_MS) else none) ∧
    (handleMessageChunk d now iso s).typingTimeout = s.typingTimeout ∧
    (fireTypingWatchdog s).isTyping = false ∧
    (fireTypingWatchdog s).typingTimeout = none := by
  refine ⟨rfl, by simp [handleTyping], rfl, ?_, rfl, rfl⟩
  unfold handleMessageChunk
  by_cases hc : d.isComplete <;> simp [hc]

/-- C5, as frozen, is false on the code: the retry counter is not "reset
only on an explicit success or clearError". A successful HTTP send leaves a
counter of 2 at 2 (no reset on success), while a `connection_status`
event reporting the WebSocket connected resets it to 0 — an event that is
neither a send success nor `clearError`. -/
theorem retry_reset_counterexample :
    (sendMessageHTTP "hi" 0 "t" (.ok ⟨"resp", "ts", none, none⟩)
        { initialChatState with retryCount := 2 }).1.retryCount = 2 ∧
    (handleConnectionStatus true
        { initialChatState with retryCount := 2 }).retryCount = 0 := by
  refine ⟨by rfl, by rfl⟩

/-- C5 (amended): `retryMessage` resends only while the per-session retry
counter is below the bound of 3, incrementing the counter before the
attempt; once the bound is reached a further call records the exhaustion
error without attempting a send; the counter is reset by `clearError` and
whenever the WebSocket reports connected, while a successful send leaves it
unchanged. -/
theorem retry_bound_behavior (m : String) (now : Nat) (iso : String)
    (r : Except String ApiChatResponse) (s : ChatHookState) :
    (s.retryCount < maxRetries →
      retryMessage m now iso r s =
        sendMessageHTTP m now iso r { s with retryCount := s.retryCount + 1 }) ∧
    (maxRetries ≤ s.retryCount →
      retryMessage m now iso r s =
        ({ s with
            error := some ("Failed to send message after " ++
              toString maxRetries ++ " attempts") }, false)) ∧
    (clearError s).retryCount = 0 ∧
    (handleConnectionStatus true s).retryCount = 0 ∧
    (∀ q, (sendMessageHTTP m now iso (.ok q) s).1.retryCount = s.retryCount) := by
  refine ⟨fun h => ?_, fun h => ?_, rfl, rfl, fun q => ?_⟩
  · unfold retryMessage
    rw [if_pos h]
  · unfold retryMessage
    rw [if_neg (by omega)]
  · unfold sendMessageHTTP
    by_cases hg : jsTrim m = "" ∨ s.isLoading
    · rw [if_pos hg]
    · rw [if_neg hg]

/-- Witness for the amended C5: with the counter already at the bound of 3
(after 3 retries), a 4th `retryMessage` call sets the exhaustion error and
returns without attempting a send (the whole state is otherwise unchanged
and the transport flag is false). -/
theorem retry_bound_behavior_witness :
    retryMessage "hi" 0 "t" (.error "boom")
        { initialChatState with retryCount := 3 } =
      ({ initialChatState with
          retryCount := 3
          error := some ("Failed to send message after " ++
            toString maxRetries ++ " attempts") }, false) :=
  (retry_bound_behavior "hi" 0 "t" (.error "boom")
    { initialChatState with retryCount := 3 }).2.1 (by decide)

/-- A 501-character input. -/
def x501 : String := String.mk (List.replicate 501 'x')

/-- C6, as frozen, is false on the code: `sendMessage` (which delegates to
`sendMessageHTTP`) performs no maximum-length check — a 501-character
message, exceeding `MAX_MESSAGE_LENGTH = 500`, still reaches the transport
call. (The empty-after-trimming inputs are dropped by the early return, but
silently: no `ValidationError` is recorded, as the amended theorem
states.) -/
theorem validation_counterexample :
    x501.length = 501 ∧ MAX_MESSAGE_LENGTH < x501.length ∧
    (sendMessageHTTP x501 0 "iso" (.ok ⟨"resp", "ts", none, none⟩)
        initialChatState).2 = true := by
  refine ⟨by decide, by decide, by decide⟩

/-- C6 (amended): `sendMessageHTTP` returns early — with the state
unchanged, so no error of any kind recorded, and no transport call — when
the input is empty after trimming (or a load is in flight); it performs no
length validation: every input that is non-empty after trimming is sent to
the transport regardless of length, the configured 500-character limit
being enforced only in the input component. -/
theorem send_validation_behavior (m : String) (now : Nat) (iso : String)
    (r : Except String ApiChatResponse) (s : ChatHookState) :
    (jsTrim m = "" → sendMessageHTTP m now iso r s = (s, false)) ∧
    (¬ jsTrim m = "" → s.isLoading = false →
      (sendMessageHTTP m now iso r s).2 = true) := by
  constructor
  · intro h
    unfold sendMessageHTTP
    rw [if_pos (Or.inl h)]
  · intro h hl
    unfold sendMessageHTTP
    rw [if_neg (by simp [h, hl])]
    cases r <;> rfl

/-- Witness for the amended C6: `" "` is dropped with the state unchanged,
while the over-length 501-character input reaches the transport. -/
theorem send_validation_behavior_witness :
    sendMessageHTTP " " 0 "t" (.ok ⟨"resp", "ts", none, none⟩)
        initialChatState = (initialChatState, false) ∧
    (sendMessageHTTP x501 1 "t" (.ok ⟨"resp", "ts", none, none⟩)
        initialChatState).2 = true :=
  ⟨(send_validation_behavior " " 0 "t" (.ok ⟨"resp", "ts", none, none⟩)
      initialChatState).1 (by rfl),
   (send_validation_behavior x501 1 "t" (.ok ⟨"resp", "ts", none, none⟩)
      initialChatState).2 (by decide) rfl⟩

/-- Five pre-existing conversation messages. -/
def fiveMessages : List Message :=
  (List.range 5).map
    (fun i =>
      { id := "m" ++ toString i
        type := MESSAGE_TYPES.USER
        content := "c" ++ toString i
        isStreaming := false
        timestamp := "t"
        metadata := none })

/-- A session holding five messages of history. -/
def sessionFive : SessionState :=
  { currentSessionId := some "session:abc"
    sessionHistory := fiveMessages
    isCreatingSession := false
    isClearingSession := false
    isLoadingHistory := false
    error := none
    sessionStats := none }

/-- A chat hook state displaying the same five messages. -/
def chatFive : ChatHookState :=
  { initialChatState with messages := fiveMessages }

/-- C7 at the failing input: clearing the session while the server-side
deletion fails. `clearCurrentSession` keeps its own history and reports the
error as claimed, but because it returns `false` instead of throwing,
`handleClearSession` still runs `clearMessages()` and empties the chat
message list — the displayed local message list is not left untouched on
failure. -/
theorem clear_failure_behavior :
    (handleClearSession (.error "Server error") sessionFive chatFive).2.messages
      = [] ∧
    chatFive.messages.length = 5 ∧
    (handleClearSession (.error "Server error") sessionFive
        chatFive).1.sessionHistory = fiveMessages ∧
    (handleClearSession (.error "Server error") sessionFive chatFive).1.error
      = some "Server error" ∧
    (handleClearSession (.error "Server error") sessionFive
        chatFive).1.currentSessionId = some "session:abc" := by
  refine ⟨by rfl, by rfl, by rfl, by rfl, by rfl⟩

/-- Look up a top-level field of a JS object value. -/
def objField (k : String) : JsValue → Option JsValue
  | .obj fields => (fields.find? (fun p => p.1 = k)).map Prod.snd
  | _ => none

/-- C8, as frozen, is false on the code: the exported object has no
`messages` field — the message history is exported under the key
`history`, so the shape is `{sessionId, history, stats, exportedAt}`, not
`{sessionId, messages, stats, exportedAt}`. -/
theorem export_shape_counterexample :
    objKeys (exportSessionData "2025-01-01T00:00:00Z" sessionFive).1 =
      ["sessionId", "history", "stats", "exportedAt"] ∧
    ¬ "messages" ∈ objKeys (exportSessionData "2025-01-01T00:00:00Z" sessionFive).1 := by
  refine ⟨by rfl, by decide⟩

/-- C8 (amended): `exportSessionData` is a pure read: it returns an object
of shape `{sessionId, history, stats, exportedAt}` whose fields are the
session identifier, the message history (under the key `history`) and the
stats, and it never mutates session state. -/
theorem export_snapshot_pure (iso : String) (s : SessionState) :
    objKeys (exportSessionData iso s).1 =
      ["sessionId", "history", "stats", "exportedAt"] ∧
    (exportSessionData iso s).2 = s ∧
    objField "sessionId" (exportSessionData iso s).1 =
      some (jsOptStr s.currentSessionId) ∧
    objField "history" (exportSessionData iso s).1 =
      some (.arr (s.sessionHistory.map msgToJs)) ∧
    objField "stats" (exportSessionData iso s).1 =
      some (jsOptStr s.sessionStats) ∧
    objField "exportedAt" (exportSessionData iso s).1 = some (.str iso) := by
  refine ⟨rfl, rfl, rfl, rfl, rfl, rfl⟩

lemma listenersFor_wsOn (event : String) (h : Handler) :
    ∀ m : ListenerMap,
      listenersFor event (wsOn event h m) = listenersFor event m ++ [h]
  | [] => by simp [wsOn, listenersFor]
  | p :: rest => by
    by_cases hp : p.1 = event
    · simp [wsOn, listenersFor, hp]
    · simp only [wsOn, if_neg hp]
      simp only [listenersFor, List.find?_cons]
      have hd : (decide (p.1 = event)) = false := by simp [hp]
      rw [hd]
      exact listenersFor_wsOn event h rest

/-- C9: handlers are registered per event name by appending to the event's
callback array, so multiple handlers per event are permitted and `emit`
invokes exactly the registered handlers in registration order: the
invocation trace lists every registered handler — including every handler
that follows a throwing one, since each invocation is isolated in its own
`try`/`catch` — in array order. -/
theorem listener_order_isolation (event : String) (m : ListenerMap)
    (h : Handler) :
    listenersFor event (wsOn event h m) = listenersFor event m ++ [h] ∧
    (wsEmit event m).map Prod.fst = (listenersFor event m).map Handler.hid ∧
    (wsEmit event m).length = (listenersFor event m).length := by
  refine ⟨listenersFor_wsOn event h m, ?_, ?_⟩
  · simp [wsEmit]
  · simp [wsEmit]

end FrontEnd
